import Mathlib

/-!
# Verification of the web-serial-plotter core

Shallow embedding of the ingestion pipeline of the plotter:

* `src/utils/cobsDecoder.ts` — the COBS frame decoder (`decodeCOBS`);
* `src/hooks/useHttp.ts` — line splitting of the HTTP streaming read,
  the connect timeout structure, and `write`;
* the connection manager (`useDataConnection`) — transport selection
  state machine (`connectSerial` / `connectHttp` / `connectGenerator` /
  `disconnect` / `write`);
* `src/utils/chartExport.ts` — CSV and WAV export of the ring store.

Bytes are modelled as `Nat`; fallible code returns `Except String`.
-/

namespace WebSerialPlotter

/-! ## COBS frame decoder (`src/utils/cobsDecoder.ts`)

The JavaScript loop walks an index `i` through `data`; at each step the
byte `code = data[i]` is read, the error check `code === 0 || i + code >
data.length + 1` is made, the next `min(code - 1, data.length - i - 1)`
bytes are copied verbatim, a zero is restored when `code < 0xFF` and the
block end lies strictly inside the input, and `i` advances to `i + code`.
With `rest` the bytes after the code byte (`data.length - i = rest.length
+ 1`) the error check reads `code = 0 ∨ rest.length + 2 < code`, the
copied bytes are `rest.take (code - 1)`, and the remaining input is
`rest.drop (code - 1)`.  The thrown `COBSDecoderError` is modelled as
`Except.error`; no partial output escapes (all-or-nothing). -/

def decodeCOBS (data : List Nat) : Except String (List Nat) :=
  match data with
  | [] => .ok []
  | code :: rest =>
    if code = 0 ∨ rest.length + 2 < code then
      .error "Invalid COBS data"
    else
      match decodeCOBS (rest.drop (code - 1)) with
      | .error e => .error e
      | .ok out =>
        .ok (rest.take (code - 1) ++
             (if code < 255 ∧ rest.drop (code - 1) ≠ [] then [0] else []) ++ out)
termination_by data.length
decreasing_by
  simp only [List.length_drop, List.length_cons]
  omega

/-- Modelled from the spec: the COBS encoder (the "inverse stuffing
algorithm" of §4.1/§8) is not part of the repository sources; only the
decoder is.  This is the standard COBS encoding the spec describes: each
maximal run of nonzero bytes is emitted behind a length code (run length
plus one); a run reaching 254 nonzero bytes is emitted under the code
`0xFF`, after which no zero is restored. -/
def encodeCOBS (b : List Nat) : List Nat :=
  if 254 ≤ (b.takeWhile (fun x => decide (x ≠ 0))).length then
    255 :: (b.take 254 ++ encodeCOBS (b.drop 254))
  else if (b.takeWhile (fun x => decide (x ≠ 0))).length = b.length then
    ((b.takeWhile (fun x => decide (x ≠ 0))).length + 1) ::
      b.takeWhile (fun x => decide (x ≠ 0))
  else
    ((b.takeWhile (fun x => decide (x ≠ 0))).length + 1) ::
      (b.takeWhile (fun x => decide (x ≠ 0)) ++
        encodeCOBS (b.drop ((b.takeWhile (fun x => decide (x ≠ 0))).length + 1)))
termination_by b.length
decreasing_by
  · have h := (List.takeWhile_sublist (l := b) (fun x => decide (x ≠ 0))).length_le
    simp only [List.length_drop]
    omega
  · have h := (List.takeWhile_sublist (l := b) (fun x => decide (x ≠ 0))).length_le
    simp only [List.length_drop]
    omega

/-- The per-step failure condition of `decodeCOBS`, iterated along the
block structure: at some offset where a length code is read, the code is
zero or the computed block end exceeds the input length plus one. -/
def badCOBS (data : List Nat) : Bool :=
  match data with
  | [] => false
  | code :: rest =>
    if code = 0 ∨ rest.length + 2 < code then true
    else badCOBS (rest.drop (code - 1))
termination_by data.length
decreasing_by
  simp only [List.length_drop, List.length_cons]
  omega

lemma encodeCOBS_ne_nil (b : List Nat) : encodeCOBS b ≠ [] := by
  unfold encodeCOBS
  split
  · simp
  split <;> simp

/-- A list whose leading run of nonzero bytes is shorter than the list
decomposes as that run, a zero byte, and the remaining tail. -/
lemma takeWhile_zero_decomp (b : List Nat)
    (h : (b.takeWhile (fun x => decide (x ≠ 0))).length ≠ b.length) :
    b = b.takeWhile (fun x => decide (x ≠ 0)) ++
        0 :: b.drop ((b.takeWhile (fun x => decide (x ≠ 0))).length + 1) := by
  induction b with
  | nil => simp at h
  | cons x t ih =>
    by_cases hx : x = 0
    · subst hx
      simp
    · rw [List.takeWhile_cons_of_pos (by simp [hx])] at h ⊢
      simp only [List.length_cons, List.cons_append, List.drop_succ_cons]
      have ht : (t.takeWhile (fun x => decide (x ≠ 0))).length ≠ t.length := by
        simp only [List.length_cons] at h
        omega
      exact congrArg (x :: ·) (ih ht)

/-! ## COBS theorems (claims C1, C2, C3) -/

/-- C1: For every byte sequence `b` (of any length, including 0, 1, 254,
255, and 256 or more bytes), encoding `b` with the inverse COBS stuffing
algorithm and then applying `decodeCOBS` to the encoded sequence yields
exactly `b`. -/
theorem decodeCOBS_encodeCOBS_roundtrip (b : List Nat) :
    decodeCOBS (encodeCOBS b) = Except.ok b := by
  induction b using encodeCOBS.induct with
  | case1 b h ih =>
    have hb : 254 ≤ b.length :=
      le_trans h (List.takeWhile_sublist _).length_le
    have htk : (b.take 254).length = 254 := by
      simp [List.length_take]; omega
    unfold encodeCOBS
    rw [if_pos h]
    rw [decodeCOBS.eq_def]
    dsimp only
    rw [if_neg (by simp [List.length_append, htk]; omega)]
    rw [List.drop_left' htk, ih]
    rw [List.take_left' htk]
    simp [List.take_append_drop]
  | case2 b h h2 =>
    have hpre : b.takeWhile (fun x => decide (x ≠ 0)) = b :=
      (List.takeWhile_sublist _).eq_of_length h2
    unfold encodeCOBS
    rw [if_neg h, if_pos h2]
    rw [decodeCOBS.eq_def]
    dsimp only
    rw [if_neg (by omega)]
    rw [hpre] at h ⊢
    simp only [Nat.add_sub_cancel, List.drop_length, List.take_length]
    rw [decodeCOBS.eq_def]
    simp
  | case3 b h h2 ih =>
    unfold encodeCOBS
    rw [if_neg h, if_neg h2]
    rw [decodeCOBS.eq_def]
    dsimp only
    rw [if_neg (by simp [List.length_append]; omega)]
    simp only [Nat.add_sub_cancel]
    rw [List.drop_left, ih, List.take_left]
    rw [if_pos ⟨by omega, encodeCOBS_ne_nil _⟩]
    conv_rhs => rw [takeWhile_zero_decomp b h2]
    simp

/-- C2: `decodeCOBS` fails with the framing error `"Invalid COBS data"`
if and only if at some offset where a length code is read the code byte
is 0 or the computed block end exceeds the input length plus 1
(`badCOBS`); in every other case it returns a decoded byte sequence (and
being `Except`-valued, no partial output is returned on error). -/
theorem decodeCOBS_error_iff_badCOBS (d : List Nat) :
    (badCOBS d = true → decodeCOBS d = Except.error "Invalid COBS data") ∧
    (badCOBS d = false → ∃ out, decodeCOBS d = Except.ok out) := by
  induction d using badCOBS.induct with
  | case1 =>
    refine ⟨fun hb => ?_, fun _ => ⟨[], ?_⟩⟩
    · rw [badCOBS.eq_def] at hb; simp at hb
    · rw [decodeCOBS.eq_def]
  | case2 code rest hcond =>
    refine ⟨fun _ => ?_, fun hb => ?_⟩
    · rw [decodeCOBS.eq_def]; dsimp only; rw [if_pos hcond]
    · rw [badCOBS.eq_def] at hb; dsimp only at hb; rw [if_pos hcond] at hb
      simp at hb
  | case3 code rest hcond ih =>
    refine ⟨fun hb => ?_, fun hb => ?_⟩
    · rw [badCOBS.eq_def] at hb; dsimp only at hb; rw [if_neg hcond] at hb
      have herr := ih.1 hb
      rw [decodeCOBS.eq_def]; dsimp only; rw [if_neg hcond, herr]
    · rw [badCOBS.eq_def] at hb; dsimp only at hb; rw [if_neg hcond] at hb
      obtain ⟨out, ho⟩ := ih.2 hb
      rw [decodeCOBS.eq_def]; dsimp only; rw [if_neg hcond, ho]
      exact ⟨_, rfl⟩

/-- Witness for C2: `[0]` fails (code byte 0 at offset 0), `[4, 1]`
fails (block end `0 + 4` exceeds `length + 1 = 3`), and `[3, 1]`
succeeds (the trailing block is allowed to stop at the input end). -/
theorem decodeCOBS_error_iff_badCOBS_witness :
    decodeCOBS [0] = Except.error "Invalid COBS data" ∧
    decodeCOBS [4, 1] = Except.error "Invalid COBS data" ∧
    (∃ out, decodeCOBS [3, 1] = Except.ok out) :=
  ⟨(decodeCOBS_error_iff_badCOBS [0]).1 (by simp [badCOBS]),
   (decodeCOBS_error_iff_badCOBS [4, 1]).1 (by simp [badCOBS]),
   (decodeCOBS_error_iff_badCOBS [3, 1]).2 (by simp [badCOBS])⟩

/-- C3: on every successful decode, the block headed by length code
`code` contributes the next `code - 1` input bytes verbatim (`take`
stops at the input end without error), followed by a restored zero
exactly when `code < 0xFF` and input remains beyond the block; for
`code = 0xFF` no zero is appended. -/
theorem decodeCOBS_block_shape (code : Nat) (rest out : List Nat)
    (h : decodeCOBS (code :: rest) = Except.ok out) :
    ∃ tail, decodeCOBS (rest.drop (code - 1)) = Except.ok tail ∧
      out = rest.take (code - 1) ++
        (if code < 255 ∧ rest.drop (code - 1) ≠ [] then [0] else []) ++ tail := by
  rw [decodeCOBS.eq_def] at h
  dsimp only at h
  split at h
  · simp at h
  · split at h
    · simp at h
    · rename_i out' ho
      refine ⟨out', ho, ?_⟩
      injection h with h
      rw [← h]

/-- Witness for C3: decoding `[2, 7, 1]` yields `[7, 0]` — the first
block contributes the byte `7` and, since input remains and `2 < 0xFF`,
a restored zero. -/
theorem decodeCOBS_block_shape_witness :
    ∃ tail, decodeCOBS (List.drop (2 - 1) [7, 1]) = Except.ok tail ∧
      [7, 0] = List.take (2 - 1) [7, 1] ++
        (if 2 < 255 ∧ List.drop (2 - 1) [7, 1] ≠ [] then [0] else []) ++ tail :=
  decodeCOBS_block_shape 2 [7, 1] [7, 0] (by simp [decodeCOBS])

/-! ## HTTP streaming line splitter (`src/hooks/useHttp.ts`, `connect`)

The HTTP sub-mode's stream loop appends each decoded chunk to `buffer`
and then runs `while ((index = buffer.indexOf('\n')) >= 0)`: the part
before the first line feed, with one trailing carriage return stripped
(`replace(/\r$/, '')`), is handed to the line handler, and `buffer`
keeps the part after the line feed.  Text is modelled as `List Char`
(the `TextDecoder` is modelled as already having decoded the bytes; the
claim's input is ASCII, so chunk boundaries fall on character
boundaries). -/

def stripCR (l : List Char) : List Char :=
  if l.getLast? = some '\r' then l.dropLast else l

/-- One run of the inner `while` loop: emit every complete line in the
buffer, keep the remainder (which contains no line feed). -/
def drainLines (buffer : List Char) : List (List Char) × List Char :=
  if h : '\n' ∈ buffer then
    let p := drainLines ((buffer.dropWhile (fun c => decide (c ≠ '\n'))).tail)
    (stripCR (buffer.takeWhile (fun c => decide (c ≠ '\n'))) :: p.1, p.2)
  else
    ([], buffer)
termination_by buffer.length
decreasing_by
  have hne : buffer.dropWhile (fun c => decide (c ≠ '\n')) ≠ [] := by
    intro hnil
    rw [List.dropWhile_eq_nil_iff] at hnil
    simpa using hnil '\n' h
  have hle := (List.dropWhile_sublist (l := buffer)
    (fun c => decide (c ≠ '\n'))).length_le
  cases hd : buffer.dropWhile (fun c => decide (c ≠ '\n')) with
  | nil => exact absurd hd hne
  | cons a t =>
    rw [hd] at hle
    simp only [hd, List.tail_cons]
    simp only [List.length_cons] at hle
    omega

/-- The outer read loop: process the received chunks in order,
collecting the emitted lines and the final buffer. -/
def processChunks (buffer : List Char) (chunks : List (List Char)) :
    List (List Char) × List Char :=
  match chunks with
  | [] => ([], buffer)
  | ck :: cks =>
    let st := drainLines (buffer ++ ck)
    let rest := processChunks st.2 cks
    (st.1 ++ rest.1, rest.2)

lemma drainLines_tail_no_lf (buffer : List Char) :
    '\n' ∉ (drainLines buffer).2 := by
  induction buffer using drainLines.induct with
  | case1 buffer h ih =>
    rw [drainLines.eq_def]
    rw [dif_pos h]
    exact ih
  | case2 buffer h =>
    rw [drainLines.eq_def]
    rw [dif_neg h]
    exact h

/-- Streaming is associative: draining after appending more text equals
draining the first part and then draining its leftover plus the new
text. -/
lemma drainLines_append (x : List Char) : ∀ y : List Char,
    drainLines (x ++ y) =
      ((drainLines x).1 ++ (drainLines ((drainLines x).2 ++ y)).1,
       (drainLines ((drainLines x).2 ++ y)).2) := by
  induction x using drainLines.induct with
  | case1 x h ih =>
    intro y
    have hxy : '\n' ∈ x ++ y := List.mem_append_left y h
    have hne : x.dropWhile (fun c => decide (c ≠ '\n')) ≠ [] := by
      intro hnil
      rw [List.dropWhile_eq_nil_iff] at hnil
      simpa using hnil '\n' h
    have htk : (x.takeWhile (fun c => decide (c ≠ '\n'))).length ≠ x.length := by
      intro hlen
      have := (List.takeWhile_sublist
        (l := x) (fun c => decide (c ≠ '\n'))).eq_of_length hlen
      rw [List.takeWhile_eq_self_iff] at this
      simpa using this '\n' h
    have htka : (x ++ y).takeWhile (fun c => decide (c ≠ '\n')) =
        x.takeWhile (fun c => decide (c ≠ '\n')) := by
      rw [List.takeWhile_append]
      rw [if_neg htk]
    have hdwa : (x ++ y).dropWhile (fun c => decide (c ≠ '\n')) =
        x.dropWhile (fun c => decide (c ≠ '\n')) ++ y := by
      rw [List.dropWhile_append]
      rw [if_neg (by simpa using hne)]
    have htla : ((x ++ y).dropWhile (fun c => decide (c ≠ '\n'))).tail =
        (x.dropWhile (fun c => decide (c ≠ '\n'))).tail ++ y := by
      rw [hdwa]
      cases hd : x.dropWhile (fun c => decide (c ≠ '\n')) with
      | nil => exact absurd hd hne
      | cons a t => simp
    conv_lhs => rw [drainLines.eq_def]
    rw [dif_pos hxy, htka, htla, ih y]
    conv_rhs => rw [drainLines.eq_def]
    rw [dif_pos h]
    simp
  | case2 x h =>
    intro y
    conv_rhs => rw [drainLines.eq_def]
    rw [dif_neg h]
    simp

/-- Chunked processing equals one-shot processing of the concatenation,
provided the starting buffer holds no complete line. -/
lemma processChunks_eq_drain (chunks : List (List Char)) :
    ∀ buffer : List Char, '\n' ∉ buffer →
    processChunks buffer chunks = drainLines (buffer ++ chunks.flatten) := by
  induction chunks with
  | nil =>
    intro buffer hb
    rw [processChunks, List.flatten_nil, List.append_nil]
    rw [drainLines.eq_def, dif_neg hb]
  | cons ck cks ih =>
    intro buffer hb
    rw [processChunks, List.flatten_cons, ← List.append_assoc]
    rw [drainLines_append (buffer ++ ck) cks.flatten]
    rw [ih _ (drainLines_tail_no_lf (buffer ++ ck))]

/-- C4: for the HTTP one-shot streaming read, when the received chunks
concatenate to the text `"a,1\nb,2\r\nc,"` (no trailing newline), the
line handler is invoked exactly twice, with `"a,1"` then `"b,2"`
(line-feed split, trailing carriage return stripped), and the leftover
partial line `"c,"` stays in the buffer. -/
theorem http_stream_split (chunks : List (List Char))
    (h : chunks.flatten = "a,1\nb,2\r\nc,".toList) :
    processChunks [] chunks = (["a,1".toList, "b,2".toList], "c,".toList) := by
  rw [processChunks_eq_drain chunks [] (by simp), List.nil_append, h]
  simp +decide [drainLines, stripCR]

/-- Witness for C4: the whole text arriving as a single chunk. -/
theorem http_stream_split_witness :
    processChunks [] ["a,1\nb,2\r\nc,".toList] =
      (["a,1".toList, "b,2".toList], "c,".toList) :=
  http_stream_split ["a,1\nb,2\r\nc,".toList] (by simp)

/-! ## Connection manager (`useDataConnection`) and `useHttp` write/connect

The manager (source file `src/unnamed/part_000`) selects between three
backends: serial, HTTP (WebSocket or one-shot streaming fetch), and the
synthetic generator.  Backend sub-states are the booleans the manager
reads (`serial.state.isConnected`, `generator.isRunning`,
`http.state.isConnected`/`isConnecting`); `httpSocket` models
`socketRef.current !== null` in `useHttp` and `httpSupported` its
`isSupported` flag.  `useSerial`/`useSignalGenerator` are not under
`src/`; their connect/stop behaviour is modelled from the spec (§4.4): a
successful backend connect ends connected, a failed one ends
disconnected and rejects, `stop`/`disconnect` are best-effort.  A
backend connect outcome is a parameter: `none` = success, `some msg` =
failure with error message `msg`. -/

inductive ConnectionType where
  | serial
  | http
  | generator
deriving DecidableEq, Repr

structure ConnState where
  serialConnected : Bool
  serialConnecting : Bool
  generatorRunning : Bool
  httpConnected : Bool
  httpConnecting : Bool
  httpSocket : Bool
  httpSupported : Bool
  httpError : Option String
  connectionType : Option ConnectionType
  managerConnecting : Bool
  error : Option String
deriving DecidableEq, Repr

/-- Initial state in a browser that supports every backend. -/
def initState : ConnState :=
  { serialConnected := false, serialConnecting := false
    generatorRunning := false, httpConnected := false
    httpConnecting := false, httpSocket := false
    httpSupported := true, httpError := none
    connectionType := none, managerConnecting := false, error := none }

/-- Aggregate `isConnecting` flag of the externally visible record. -/
def stateIsConnecting (s : ConnState) : Bool :=
  s.managerConnecting || s.serialConnecting || s.httpConnecting

/-- Aggregate `isConnected` flag of the externally visible record. -/
def stateIsConnected (s : ConnState) : Bool :=
  s.serialConnected || s.generatorRunning || s.httpConnected

/-- Number of backends that are `Connected` or `Connecting` (the
mutual-exclusion measure of spec §4.5). -/
def activeBackends (s : ConnState) : Nat :=
  (if s.serialConnected || s.serialConnecting then 1 else 0) +
  (if s.generatorRunning then 1 else 0) +
  (if s.httpConnected || s.httpConnecting then 1 else 0)

def generatorStop (s : ConnState) : ConnState :=
  { s with generatorRunning := false }

def serialDisconnect (s : ConnState) : ConnState :=
  { s with serialConnected := false }

/-- `useHttp.disconnect`: abort the fetch, close and clear the socket,
set `isConnected := false`; never throws. -/
def httpDisconnect (s : ConnState) : ConnState :=
  { s with httpConnected := false, httpSocket := false }

/-- Modelled from the spec: `useSerial.connect` (file not under `src/`):
on success the backend ends connected, on failure it ends disconnected
and the promise rejects. -/
def serialConnect (outcome : Option String) (s : ConnState) :
    ConnState × Except String Unit :=
  match outcome with
  | none => ({ s with serialConnected := true, serialConnecting := false }, .ok ())
  | some msg =>
    ({ s with serialConnected := false, serialConnecting := false }, .error msg)

/-- `useHttp.connect` (from `src/src/hooks/useHttp.ts`), collapsed to a
completed call: unsupported browsers record an error and resolve without
connecting; otherwise the hook disconnects first, enters connecting,
creates a socket exactly when the address is a WebSocket URL (`isWs`),
and on failure records its error and rethrows, resetting `isConnecting`
in the `finally` block. -/
def httpConnect (outcome : Option String) (isWs : Bool) (s : ConnState) :
    ConnState × Except String Unit :=
  if s.httpSupported = false then
    ({ s with httpError := some "Streaming fetch not supported in this browser." },
     .ok ())
  else
    let s1 := httpDisconnect s
    let s2 := { s1 with httpConnecting := true, httpError := none }
    match outcome with
    | none =>
      ({ s2 with httpSocket := isWs, httpConnected := true, httpConnecting := false },
       .ok ())
    | some msg =>
      ({ s2 with httpSocket := isWs, httpError := some msg, httpConnecting := false },
       .error msg)

/-- `connectSerial` of the manager: stop the generator if running,
disconnect HTTP if connected, enter connecting with the error cleared,
run the backend connect; on success record the active kind, on failure
record the error, clear the kind and rethrow; `finally` clears the
connecting flag. -/
def connectSerial (outcome : Option String) (s : ConnState) :
    ConnState × Except String Unit :=
  let s1 := if s.generatorRunning then generatorStop s else s
  let s2 := if s1.httpConnected then httpDisconnect s1 else s1
  let s3 := { s2 with managerConnecting := true, error := none }
  match serialConnect outcome s3 with
  | (s4, .ok _) =>
    ({ s4 with connectionType := some .serial, managerConnecting := false }, .ok ())
  | (s4, .error msg) =>
    ({ s4 with error := some msg, connectionType := none, managerConnecting := false },
     .error msg)

/-- `connectHttp` of the manager. -/
def connectHttp (outcome : Option String) (isWs : Bool) (s : ConnState) :
    ConnState × Except String Unit :=
  let s1 := if s.serialConnected then serialDisconnect s else s
  let s2 := if s1.generatorRunning then generatorStop s1 else s1
  let s3 := { s2 with managerConnecting := true, error := none }
  match httpConnect outcome isWs s3 with
  | (s4, .ok _) =>
    ({ s4 with connectionType := some .http, managerConnecting := false }, .ok ())
  | (s4, .error msg) =>
    ({ s4 with error := some msg, connectionType := none, managerConnecting := false },
     .error msg)

/-- `connectGenerator` of the manager: disconnect serial/HTTP if
connected, clear the error, set the kind *before* starting, start the
generator; a failure records the error and clears the kind but is *not*
rethrown (the `catch` block has no `throw`).  The generator backend
itself is Modelled from the spec (`useSignalGenerator` is not under
`src/`): per §4.5/§7 a backend whose connect/start fails ends not
running, so a failing `generator.start()` leaves `isRunning` false. -/
def connectGenerator (outcome : Option String) (s : ConnState) :
    ConnState × Except String Unit :=
  let s1 := if s.serialConnected then serialDisconnect s else s
  let s2 := if s1.httpConnected then httpDisconnect s1 else s1
  let s3 := { s2 with error := none, connectionType := some .generator }
  match outcome with
  | none => ({ s3 with generatorRunning := true }, .ok ())
  | some msg =>
    ({ s3 with generatorRunning := false, error := some msg,
               connectionType := none }, .ok ())

/-- `disconnect` of the manager: best-effort teardown of every backend,
then clear the kind; never throws. -/
def disconnectAll (s : ConnState) : ConnState :=
  let s1 := { s with error := none }
  let s2 := if s1.serialConnected then serialDisconnect s1 else s1
  let s3 := if s2.generatorRunning then generatorStop s2 else s2
  let s4 := if s3.httpConnected then httpDisconnect s3 else s3
  { s4 with connectionType := none }

/-- Where a `write` would land. -/
inductive WriteTarget where
  | serialPort
  | socket
deriving DecidableEq, Repr

/-- `useHttp.write`: not connected → throw `"Not connected"`; socket
present → send on it; otherwise (one-shot streaming fetch sub-mode)
throw the explicit not-supported error. -/
def httpWrite (s : ConnState) : Except String WriteTarget :=
  if s.httpConnected = false then .error "Not connected"
  else if s.httpSocket then .ok .socket
  else .error "write on HTTP connection not supported"

/-- `write` of the manager: route to serial when the active kind is
serial and the serial backend is connected, to `useHttp.write` when the
active kind is HTTP and connected, else throw `"Not connected"`. -/
def managerWrite (s : ConnState) : Except String WriteTarget :=
  if s.connectionType = some ConnectionType.serial ∧ s.serialConnected then
    .ok .serialPort
  else if s.connectionType = some ConnectionType.http ∧ s.httpConnected then
    httpWrite s
  else .error "Not connected"

/-- A completed manager operation (sequential semantics: each call runs
to completion before the next starts). -/
inductive MgrOp where
  | opConnectSerial (outcome : Option String)
  | opConnectHttp (outcome : Option String) (isWs : Bool)
  | opConnectGenerator (outcome : Option String)
  | opDisconnect

def applyOp (s : ConnState) (op : MgrOp) : ConnState × Except String Unit :=
  match op with
  | .opConnectSerial outcome => connectSerial outcome s
  | .opConnectHttp outcome isWs => connectHttp outcome isWs s
  | .opConnectGenerator outcome => connectGenerator outcome s
  | .opDisconnect => (disconnectAll s, .ok ())

def runOps (s : ConnState) (ops : List MgrOp) : ConnState :=
  ops.foldl (fun t op => (applyOp t op).1) s

/-- States reachable by completed operations: no backend is mid-connect
and at most one backend is connected. -/
def Settled (s : ConnState) : Prop :=
  s.serialConnecting = false ∧ s.httpConnecting = false ∧
  activeBackends s ≤ 1

/-! ### Interleaving of an in-flight `connectHttp` (claim C5)

`connectHttp`'s backend call suspends at `await fetch(address)`.
`connectHttpStreamStart` is the prefix of `connectHttp` up to that
suspension point (teardown checks, `setIsConnecting(true)`,
`setError(null)`, then `useHttp.connect` up to the `fetch`: its own
disconnect, `isConnecting := true`, `error := null`);
`connectHttpStreamFinish` is the continuation once the fetch resolves
successfully (`isConnected := true`, `isConnecting := false`,
`setConnectionType('http')`, manager `finally`). -/

def connectHttpStreamStart (s : ConnState) : ConnState :=
  let s1 := if s.serialConnected then serialDisconnect s else s
  let s2 := if s1.generatorRunning then generatorStop s1 else s1
  let s3 := { s2 with managerConnecting := true, error := none }
  let s4 := httpDisconnect s3
  { s4 with httpConnecting := true, httpError := none }

def connectHttpStreamFinish (s : ConnState) : ConnState :=
  let s1 := { s with httpConnected := true, httpConnecting := false }
  { s1 with connectionType := some ConnectionType.http,
            managerConnecting := false }

/-! ### Connect settlement structure of `useHttp.connect` (claim C8)

The WebSocket sub-mode waits on a promise racing `socket.onopen`,
`socket.onerror` and a 5000 ms `setTimeout` rejection; the one-shot
streaming sub-mode awaits `fetch(address)` with no timeout.  `avail` is
the instant the underlying transport produces its first event (`none` =
it never does); the result is `none` when the connect call never
settles, or `some (t, r)` when it settles at time `t` with result
`r`. -/

def wsConnectSettle (avail : Option (Nat × Bool)) :
    Option (Nat × Except String Unit) :=
  match avail with
  | none => some (5000, .error "Connection timeout")
  | some (t, isOpen) =>
    if t < 5000 then
      some (t, if isOpen then .ok () else .error "Failed to connect to WebSocket")
    else
      some (5000, .error "Connection timeout")

def fetchConnectSettle (avail : Option (Nat × Except String Unit)) :
    Option (Nat × Except String Unit) :=
  match avail with
  | none => none
  | some (t, r) => some (t, r)

/-! ## Connection manager theorems (claims C5, C6, C7, C8) -/

lemma settled_applyOp (s : ConnState) (hs : Settled s) (op : MgrOp) :
    Settled (applyOp s op).1 := by
  obtain ⟨h1, h2, h3⟩ := hs
  rcases s with ⟨sc, scg, gr, hc, hcg, hsock, hsup, herr, ct, mc, err⟩
  simp only at h1 h2
  subst h1; subst h2
  cases op with
  | opConnectSerial outcome =>
    cases outcome <;>
    cases gr <;> cases hc <;>
      simp [applyOp, connectSerial, serialConnect, generatorStop, httpDisconnect,
        Settled, activeBackends]
  | opConnectHttp outcome isWs =>
    cases outcome <;>
    cases sc <;> cases gr <;> cases hsup <;>
      simp_all [applyOp, connectHttp, httpConnect, serialDisconnect, generatorStop,
        httpDisconnect, Settled, activeBackends] <;>
      omega
  | opConnectGenerator outcome =>
    cases outcome <;>
    cases sc <;> cases hc <;>
      simp_all [applyOp, connectGenerator, serialDisconnect, httpDisconnect,
        Settled, activeBackends]
  | opDisconnect =>
    cases sc <;> cases gr <;> cases hc <;>
      simp_all [applyOp, disconnectAll, serialDisconnect, generatorStop,
        httpDisconnect, Settled, activeBackends]

lemma settled_runOps (ops : List MgrOp) :
    ∀ s : ConnState, Settled s → Settled (runOps s ops) := by
  induction ops with
  | nil => intro s hs; exact hs
  | cons op ops ih =>
    intro s hs
    exact ih _ (settled_applyOp s hs op)

/-- Counterexample to C5: the teardown checks test only `isConnected` /
`isRunning`, never `isConnecting`.  If `connectHttp` is in flight
(suspended at `await fetch`), a full `connectSerial` call does not
disconnect it, and once the fetch resolves both the serial and the HTTP
backend are `Connected` at the same instant (two active backends). -/
theorem manager_overlap_two_connected :
    (connectSerial none (connectHttpStreamStart initState)).1.httpConnecting
      = true ∧
    activeBackends (connectHttpStreamFinish
      ((connectSerial none (connectHttpStreamStart initState)).1)) = 2 ∧
    (connectHttpStreamFinish
      ((connectSerial none (connectHttpStreamStart initState)).1)).serialConnected
      = true ∧
    (connectHttpStreamFinish
      ((connectSerial none (connectHttpStreamStart initState)).1)).httpConnected
      = true := by
  refine ⟨rfl, by decide, rfl, rfl⟩

/-- C5 (amended): every *completed* connect call tears the other
backends down (a backend that is merely connected is disconnected, the
generator stopped), so over sequential, non-overlapping calls at most
one backend is `Connected` or `Connecting` at any completed instant, and
after a successful connect the active kind is exactly the requested
backend; the mutual exclusion does not extend over overlapping connect
calls (see the counterexample). -/
theorem manager_sequential_exclusion (s : ConnState) (hs : Settled s) :
    (∀ op : MgrOp, Settled (applyOp s op).1) ∧
    ((connectSerial none s).1.connectionType = some ConnectionType.serial ∧
     (connectSerial none s).1.serialConnected = true ∧
     (connectSerial none s).1.generatorRunning = false ∧
     (connectSerial none s).1.httpConnected = false) ∧
    (s.httpSupported = true → ∀ isWs : Bool,
     (connectHttp none isWs s).1.connectionType = some ConnectionType.http ∧
     (connectHttp none isWs s).1.httpConnected = true ∧
     (connectHttp none isWs s).1.serialConnected = false ∧
     (connectHttp none isWs s).1.generatorRunning = false) ∧
    ((connectGenerator none s).1.connectionType = some ConnectionType.generator ∧
     (connectGenerator none s).1.generatorRunning = true ∧
     (connectGenerator none s).1.serialConnected = false ∧
     (connectGenerator none s).1.httpConnected = false) ∧
    (∀ ops : List MgrOp, activeBackends (runOps initState ops) ≤ 1) := by
  refine ⟨settled_applyOp s hs, ?_, ?_, ?_, ?_⟩
  · rcases s with ⟨sc, scg, gr, hc, hcg, hsock, hsup, herr, ct, mc, err⟩
    cases gr <;> cases hc <;>
      simp [connectSerial, serialConnect, generatorStop, httpDisconnect]
  · intro hsup' isWs
    rcases s with ⟨sc, scg, gr, hc, hcg, hsock, hsup, herr, ct, mc, err⟩
    simp only at hsup'; subst hsup'
    cases sc <;> cases gr <;>
      simp [connectHttp, httpConnect, serialDisconnect, generatorStop,
        httpDisconnect]
  · rcases s with ⟨sc, scg, gr, hc, hcg, hsock, hsup, herr, ct, mc, err⟩
    cases sc <;> cases hc <;>
      simp [connectGenerator, serialDisconnect, httpDisconnect]
  · intro ops
    exact (settled_runOps ops initState
      (by simp [Settled, initState, activeBackends])).2.2

/-- Witness for C5 (amended): from the initial state, a successful
`connectSerial` ends with the active kind `serial`. -/
theorem manager_sequential_exclusion_witness :
    (connectSerial none initState).1.connectionType
      = some ConnectionType.serial :=
  (manager_sequential_exclusion initState
    (by simp [Settled, initState, activeBackends])).2.1.1

/-- The manager's own `isConnecting` flag is transient: it is false
after every completed call (`connectSerial`/`connectHttp` clear it in
their `finally`, `connectGenerator`/`disconnect` never set it), so it is
false in every state reachable by completed operations. -/
lemma managerConnecting_applyOp (s : ConnState)
    (h : s.managerConnecting = false) (op : MgrOp) :
    (applyOp s op).1.managerConnecting = false := by
  rcases s with ⟨sc, scg, gr, hc, hcg, hsock, hsup, herr, ct, mc, err⟩
  simp only at h
  subst h
  cases op with
  | opConnectSerial outcome =>
    cases outcome <;>
      simp [applyOp, connectSerial, serialConnect, generatorStop, httpDisconnect]
  | opConnectHttp outcome isWs =>
    cases outcome <;>
    cases hsup <;>
      simp [applyOp, connectHttp, httpConnect, serialDisconnect, generatorStop,
        httpDisconnect] <;>
      split_ifs <;> simp
  | opConnectGenerator outcome =>
    cases outcome <;>
      simp [applyOp, connectGenerator, serialDisconnect, httpDisconnect] <;>
      split_ifs <;> simp
  | opDisconnect =>
    simp [applyOp, disconnectAll, serialDisconnect, generatorStop,
      httpDisconnect] <;>
    split_ifs <;> simp

/-- Counterexample to C6: a failing `connectGenerator` does *not*
propagate the failure — its `catch` block records the error and clears
the kind but has no `throw`, so the call resolves successfully. -/
theorem connectGenerator_failure_not_rejected :
    (connectGenerator (some "generator failed") initState).2 = Except.ok () ∧
    (connectGenerator (some "generator failed") initState).1.error
      = some "generator failed" := ⟨rfl, rfl⟩

/-- C6 (amended): in any completed-call state (`Settled`, manager flag
down — an invariant by `managerConnecting_applyOp`), a failing backend
connect leaves the manager Idle: active kind cleared to `null`,
aggregate `isConnecting` false, no backend connected, with the error
message recorded; for serial and HTTP the failure is propagated by
rejecting the connect call, while a failing generator start is
swallowed (the call resolves). -/
theorem connect_failure_idle_error (s : ConnState) (msg : String)
    (hs : Settled s) (hmc : s.managerConnecting = false) :
    ((connectSerial (some msg) s).1.connectionType = none ∧
     (connectSerial (some msg) s).1.error = some msg ∧
     stateIsConnecting (connectSerial (some msg) s).1 = false ∧
     stateIsConnected (connectSerial (some msg) s).1 = false ∧
     (connectSerial (some msg) s).2 = Except.error msg) ∧
    (s.httpSupported = true → ∀ isWs : Bool,
     (connectHttp (some msg) isWs s).1.connectionType = none ∧
     (connectHttp (some msg) isWs s).1.error = some msg ∧
     stateIsConnecting (connectHttp (some msg) isWs s).1 = false ∧
     stateIsConnected (connectHttp (some msg) isWs s).1 = false ∧
     (connectHttp (some msg) isWs s).2 = Except.error msg) ∧
    ((connectGenerator (some msg) s).1.connectionType = none ∧
     (connectGenerator (some msg) s).1.error = some msg ∧
     stateIsConnecting (connectGenerator (some msg) s).1 = false ∧
     stateIsConnected (connectGenerator (some msg) s).1 = false ∧
     (connectGenerator (some msg) s).2 = Except.ok ()) := by
  obtain ⟨h1, h2, h3⟩ := hs
  refine ⟨?_, ?_, ?_⟩
  · rcases s with ⟨sc, scg, gr, hc, hcg, hsock, hsup, herr, ct, mc, err⟩
    simp only at h1 h2 hmc; subst h1; subst h2; subst hmc
    cases gr <;> cases hc <;>
      simp [connectSerial, serialConnect, generatorStop, httpDisconnect,
        stateIsConnecting, stateIsConnected]
  · intro hsup' isWs
    rcases s with ⟨sc, scg, gr, hc, hcg, hsock, hsup, herr, ct, mc, err⟩
    simp only at h1 h2 hmc hsup'
    subst h1; subst h2; subst hmc; subst hsup'
    cases sc <;> cases gr <;>
      simp [connectHttp, httpConnect, serialDisconnect, generatorStop,
        httpDisconnect, stateIsConnecting, stateIsConnected]
  · rcases s with ⟨sc, scg, gr, hc, hcg, hsock, hsup, herr, ct, mc, err⟩
    simp only at h1 h2 hmc; subst h1; subst h2; subst hmc
    cases sc <;> cases hc <;>
      simp [connectGenerator, serialDisconnect, httpDisconnect,
        stateIsConnecting, stateIsConnected]

/-- Witness for C6 (amended): a failing serial connect from the initial
state is rejected with its message; a failing generator start is not,
yet leaves the manager Idle. -/
theorem connect_failure_idle_error_witness :
    (connectSerial (some "fail") initState).2 = Except.error "fail" ∧
    (connectGenerator (some "fail") initState).2 = Except.ok () ∧
    stateIsConnected (connectGenerator (some "fail") initState).1 = false :=
  ⟨(connect_failure_idle_error initState "fail"
      (by simp [Settled, initState, activeBackends]) rfl).1.2.2.2.2,
   (connect_failure_idle_error initState "fail"
      (by simp [Settled, initState, activeBackends]) rfl).2.2.2.2.2.2,
   (connect_failure_idle_error initState "fail"
      (by simp [Settled, initState, activeBackends]) rfl).2.2.2.2.2.1⟩

/-- C7: whenever the manager's routing condition for a connected
bidirectional backend fails — Idle, connecting, generator active, or
immediately after a failed connect all make it fail — `write` throws
`"Not connected"` and touches no backend; when the active kind is HTTP,
connected through the one-shot streaming sub-mode (no socket, i.e. a
non-WebSocket address), `write` throws the explicit not-supported
error. -/
theorem managerWrite_guard (s : ConnState) :
    (¬(s.connectionType = some ConnectionType.serial ∧ s.serialConnected = true) →
     ¬(s.connectionType = some ConnectionType.http ∧ s.httpConnected = true) →
     managerWrite s = Except.error "Not connected") ∧
    (s.connectionType = some ConnectionType.http → s.httpConnected = true →
     s.httpSocket = false →
     managerWrite s = Except.error "write on HTTP connection not supported") := by
  constructor
  · intro hns hnh
    rw [managerWrite, if_neg, if_neg]
    · exact fun h => hnh ⟨h.1, h.2⟩
    · exact fun h => hns ⟨h.1, h.2⟩
  · intro hct hc hsock
    rw [managerWrite, if_neg, if_pos ⟨hct, hc⟩]
    · rw [httpWrite, if_neg (by simp [hc]), if_neg (by simp [hsock])]
    · intro h
      rcases h with ⟨h1', _⟩
      rw [hct] at h1'
      exact absurd h1' (by simp)

/-- Witness for C7: with the generator running `write` is rejected as
not connected; connected over a plain HTTP (non-WebSocket) address it is
rejected as not supported. -/
theorem managerWrite_guard_witness :
    managerWrite (connectGenerator none initState).1
      = Except.error "Not connected" ∧
    managerWrite (connectHttp none false initState).1
      = Except.error "write on HTTP connection not supported" :=
  ⟨(managerWrite_guard (connectGenerator none initState).1).1
      (by decide) (by decide),
   (managerWrite_guard (connectHttp none false initState).1).2 rfl rfl rfl⟩

/-- Counterexample to C8: the one-shot streaming sub-mode awaits
`fetch(address)` with no timeout registered, so a connection attempt
whose transport never responds never settles — it neither fails with a
timeout error nor resolves. -/
theorem fetch_connect_never_settles : fetchConnectSettle none = none := rfl

/-- C8 (amended): only the WebSocket sub-mode attempt is time-bounded:
it always settles by 5000 ms, and with no socket event it settles at
5000 ms with the `"Connection timeout"` error; the one-shot streaming
(fetch) sub-mode has no timeout and can remain pending indefinitely. -/
theorem ws_connect_bounded (avail : Option (Nat × Bool)) :
    (wsConnectSettle avail).isSome = true ∧
    (∀ t r, wsConnectSettle avail = some (t, r) → t ≤ 5000) ∧
    (avail = none →
      wsConnectSettle avail = some (5000, Except.error "Connection timeout")) := by
  cases avail with
  | none => simp [wsConnectSettle]
  | some p =>
    obtain ⟨t, o⟩ := p
    by_cases ht : t < 5000 <;>
      simp only [wsConnectSettle, if_pos, if_neg, ht, if_true, if_false] <;>
      refine ⟨by simp, ?_, by simp⟩ <;>
      · intro t' r' h'
        simp only [Option.some.injEq, Prod.mk.injEq] at h'
        omega

/-- Witness for C8 (amended): a WebSocket attempt with no response
settles at the 5000 ms timeout. -/
theorem ws_connect_bounded_witness :
    wsConnectSettle none = some (5000, Except.error "Connection timeout") :=
  (ws_connect_bounded none).2.2 rfl

/-! ## Chart export (`src/utils/chartExport.ts`)

The export code inspects stored numbers only through
`Number.isFinite(v)` and `v.toString()` (and timestamp formatting of
finite values).  JavaScript numbers are modelled by `JsVal`: an
integer-valued finite number, or one of the non-finite values `NaN`,
`±Infinity`, plus `undefined` for out-of-range array reads (all of which
fail `Number.isFinite`). -/

inductive JsVal where
  | num (n : Int)
  | nan
  | inf
  | negInf
  | undef
deriving DecidableEq, Repr

def JsVal.isFinite : JsVal → Bool
  | num _ => true
  | _ => false

/-- `v.toString()` of a finite (integer-valued) number. -/
def JsVal.render : JsVal → String
  | num n => toString n
  | nan => "NaN"
  | inf => "Infinity"
  | negInf => "-Infinity"
  | undef => "undefined"

inductive TimeFormat where
  | iso
  | relative
  | timestamp
deriving DecidableEq, Repr

inductive ChartExportScope where
  | visible
  | all
deriving DecidableEq, Repr

inductive ExportFormat where
  | csv
  | wav
deriving DecidableEq, Repr

/-- `ChartExportOptions`; the optional `includeTimestamps` is modelled
by its effective truthiness and the optional `timeFormat` by an
`Option` (the code reads it as `options.timeFormat || 'iso'`). -/
structure ChartExportOptions where
  scope : ChartExportScope
  includeTimestamps : Bool
  timeFormat : Option TimeFormat
  format : ExportFormat
deriving DecidableEq, Repr

def pad2 (n : Nat) : String :=
  if n < 10 then "0" ++ toString n else toString n

def pad3 (n : Nat) : String :=
  if n < 10 then "00" ++ toString n
  else if n < 100 then "0" ++ toString n
  else toString n

def pad4 (y : Int) : String :=
  if y < 0 then "-" ++ pad4 (-y)
  else if y < 10 then "000" ++ toString y
  else if y < 100 then "00" ++ toString y
  else if y < 1000 then "0" ++ toString y
  else toString y
termination_by (if y < 0 then 1 else 0)
decreasing_by
  rename_i h
  simp [h]
  omega

/-- Models the browser builtin `new Date(t).toISOString()` (spec §1
treats the browser APIs as external collaborators): proleptic-Gregorian
civil date from days since the 1970-01-01 epoch (civil-from-days),
rendered `YYYY-MM-DDTHH:mm:ss.sssZ`.  No claim constrains this text. -/
def isoString (t : Int) : String :=
  let days := t.fdiv 86400000
  let msOfDay := (t - days * 86400000).toNat
  let z := days + 719468
  let era := z.fdiv 146097
  let doe := (z - era * 146097).toNat
  let yoe := (doe - doe / 1460 + doe / 36524 - doe / 146096) / 365
  let doy := doe - (365 * yoe + yoe / 4 - yoe / 100)
  let mp := (5 * doy + 2) / 153
  let d := doy - (153 * mp + 2) / 5 + 1
  let m := if mp < 10 then mp + 3 else mp - 9
  let year := if m ≤ 2 then (yoe : Int) + era * 400 + 1 else (yoe : Int) + era * 400
  pad4 year ++ "-" ++ pad2 m ++ "-" ++ pad2 d ++ "T" ++
    pad2 (msOfDay / 3600000) ++ ":" ++ pad2 (msOfDay % 3600000 / 60000) ++ ":" ++
    pad2 (msOfDay % 60000 / 1000) ++ "." ++ pad3 (msOfDay % 1000) ++ "Z"

/-- Models `(relativeMs / 1000).toFixed(3)` for an integer number of
milliseconds (exact, no float rounding needed). -/
def fixed3 (d : Int) : String :=
  if d < 0 then
    "-" ++ toString ((-d) / 1000) ++ "." ++ pad3 ((-d) % 1000).toNat
  else
    toString (d / 1000) ++ "." ++ pad3 (d % 1000).toNat

/-- `formatChartTimestamp` (source lines 13-26).  The argument is the
finite timestamp value; `baseTime` keeps JavaScript truthiness: an
`undefined` *or zero* base falls back to the raw timestamp
(`baseTime ? timestamp - baseTime : timestamp`). -/
def formatChartTimestamp (timestamp : Int) (format : TimeFormat)
    (baseTime : Option Int) : String :=
  match format with
  | .iso => isoString timestamp
  | .relative =>
    match baseTime with
    | some b => if b = 0 then fixed3 timestamp else fixed3 (timestamp - b)
    | none => fixed3 timestamp
  | .timestamp => toString timestamp

/-- The `RingStore` fields the export functions read (`getSeries()`
modelled as the names in insertion order, `getCapacity()`, the public
`writeIndex`, `times`, per-series `buffers`, `firstTimestamp`). -/
structure RingStore where
  series : List String
  capacity : Nat
  writeIndex : Nat
  times : List JsVal
  buffers : List (List JsVal)
  firstTimestamp : Option Int
deriving Repr

/-- The `ViewPortData` fields `exportVisibleChartDataAsCsv` reads:
`series`, `getTimes()`, `getSeriesData(i)` (row `i` of `seriesData`),
`firstTimestamp`. -/
structure ViewPortData where
  series : List String
  times : List JsVal
  seriesData : List (List JsVal)
  firstTimestamp : Option Int
deriving Repr

/-- One data cell: `Number.isFinite(value) ? value.toString() : ''`. -/
def csvCell (v : JsVal) : String :=
  if v.isFinite then v.render else ""

/-- The per-series cells of one row of the full-store export
(`store.buffers[seriesIndex][ringIndex]`; reading out of range gives
`undefined`, which is not finite). -/
def csvSeriesCells (store : RingStore) (ringIndex : Nat) : List String :=
  (List.range store.series.length).map (fun si =>
    csvCell ((store.buffers.getD si []).getD ringIndex JsVal.undef))

/-- The timestamp cell of one row of the full-store export (source
lines 116-123): present only when `includeTimestamps`, empty when the
stored timestamp is not finite. -/
def csvTimeCell (store : RingStore) (options : ChartExportOptions)
    (ringIndex : Nat) : List String :=
  if options.includeTimestamps then
    [match store.times.getD ringIndex JsVal.undef with
     | JsVal.num n =>
       formatChartTimestamp n (options.timeFormat.getD TimeFormat.iso)
         (if options.timeFormat = some TimeFormat.relative then
           store.firstTimestamp else none)
     | _ => ""]
  else []

/-- One row of the full-store export at logical index `i`. -/
def csvRowAll (store : RingStore) (options : ChartExportOptions) (i : Nat) :
    String :=
  String.intercalate ","
    (csvTimeCell store options (i % store.capacity) ++
     csvSeriesCells store (i % store.capacity))

/-- The header line: an optional `Timestamp` column, then one column
per series in insertion order. -/
def csvHeaderLine (series : List String) (options : ChartExportOptions) :
    String :=
  String.intercalate ","
    ((if options.includeTimestamps then ["Timestamp"] else []) ++ series)

/-- `exportAllChartDataAsCsv` (source lines 75-135). -/
def exportAllChartDataAsCsv (store : RingStore)
    (options : ChartExportOptions) : String :=
  if store.series.length = 0 then
    "No data available"
  else if min store.writeIndex store.capacity = 0 then
    csvHeaderLine store.series options
  else
    String.intercalate "\n"
      (csvHeaderLine store.series options ::
       (List.range'
          (if store.capacity < store.writeIndex then
            store.writeIndex - store.capacity else 0)
          (store.writeIndex - 1 + 1 -
            (if store.capacity < store.writeIndex then
              store.writeIndex - store.capacity else 0))).map
         (csvRowAll store options))

/-- One row of the visible-snapshot export at snapshot index `i`
(source lines 52-70): a missing sample (`i` beyond `getSeriesData`'s
length) counts as `NaN` and renders empty. -/
def csvRowVisible (snapshot : ViewPortData) (options : ChartExportOptions)
    (i : Nat) : String :=
  String.intercalate ","
    ((if options.includeTimestamps then
        [match snapshot.times.getD i JsVal.undef with
         | JsVal.num n =>
           formatChartTimestamp n (options.timeFormat.getD TimeFormat.iso)
             (if options.timeFormat = some TimeFormat.relative then
               snapshot.firstTimestamp else none)
         | _ => ""]
      else []) ++
     (List.range snapshot.series.length).map (fun si =>
       csvCell ((snapshot.seriesData.getD si []).getD i JsVal.nan)))

/-- `exportVisibleChartDataAsCsv` (source lines 28-73). -/
def exportVisibleChartDataAsCsv (snapshot : ViewPortData)
    (options : ChartExportOptions) : String :=
  if snapshot.series.length = 0 ∨ snapshot.times.length = 0 then
    "No data available"
  else
    String.intercalate "\n"
      (csvHeaderLine snapshot.series options ::
       (List.range snapshot.times.length).map (csvRowVisible snapshot options))

/-- The WAV output's data-source contract (spec §1 excludes the byte
layout of the writer beyond this): channel count = series count, the
fixed 8000 Hz sample rate, and the interleaved frames with non-finite
values written as zero. -/
structure WavData where
  numChannels : Nat
  sampleRate : Nat
  samples : List Int
deriving DecidableEq, Repr

/-- `exportAllChartDataAsWav` (source lines 138-225); the thrown
`Error('No data available')` is modelled as `Except.error`. -/
def exportAllChartDataAsWav (store : RingStore) : Except String WavData :=
  if store.series.length = 0 then
    .error "No data available"
  else if min store.writeIndex store.capacity = 0 then
    .error "No data available"
  else
    .ok
      { numChannels := store.series.length
        sampleRate := 8000
        samples :=
          ((List.range'
              (if store.capacity < store.writeIndex then
                store.writeIndex - store.capacity else 0)
              (store.writeIndex - 1 + 1 -
                (if store.capacity < store.writeIndex then
                  store.writeIndex - store.capacity else 0))).map
            (fun i =>
              (List.range store.series.length).map (fun ch =>
                match (store.buffers.getD ch []).getD
                    (i % store.capacity) JsVal.undef with
                | JsVal.num n => n
                | _ => 0))).flatten }

/-- The observable effect of `exportChartData`: which content is handed
to `downloadFile` (the timestamped file name is external mechanics). -/
inductive ExportAction where
  | downloadCsv (content : String)
  | downloadWav (w : WavData)
deriving DecidableEq, Repr

/-- `exportChartData` (source lines 228-260). -/
def exportChartData (snapshot : ViewPortData) (store : RingStore)
    (options : ChartExportOptions) : Except String ExportAction :=
  match options.format with
  | .csv =>
    if options.scope = ChartExportScope.visible then
      .ok (.downloadCsv (exportVisibleChartDataAsCsv snapshot options))
    else
      .ok (.downloadCsv (exportAllChartDataAsCsv store options))
  | .wav =>
    if options.scope = ChartExportScope.visible then
      .error "`visible` scope is not supported for WAV export"
    else
      match exportAllChartDataAsWav store with
      | .error e => .error e
      | .ok w => .ok (.downloadWav w)

/-! ## Chart export theorems (claims C9, C10) -/

/-- C9: for every ring store with at least one series and at least one
valid sample, the full-range CSV export is exactly one header row (a
`Timestamp` column when timestamps are included, then one column per
series in insertion order — `csvHeaderLine`) followed by one row per
valid sample index (`min W C` rows) in chronological order from logical
index `W - C` (that is, `max 0 (W - C)`) to `W - 1`; non-finite sample
values and non-finite timestamps render as empty fields. -/
theorem exportAll_csv_structure (store : RingStore)
    (options : ChartExportOptions)
    (hseries : store.series ≠ [])
    (hsamples : 1 ≤ min store.writeIndex store.capacity) :
    exportAllChartDataAsCsv store options =
      String.intercalate "\n"
        (csvHeaderLine store.series options ::
         (List.range (min store.writeIndex store.capacity)).map (fun k =>
           csvRowAll store options (store.writeIndex - store.capacity + k))) ∧
    (∀ ringIndex si, si < store.series.length →
      ((store.buffers.getD si []).getD ringIndex JsVal.undef).isFinite = false →
      (csvSeriesCells store ringIndex).getD si "?" = "") ∧
    (∀ ringIndex, options.includeTimestamps = true →
      (store.times.getD ringIndex JsVal.undef).isFinite = false →
      csvTimeCell store options ringIndex = [""]) := by
  refine ⟨?_, ?_, ?_⟩
  · rw [exportAllChartDataAsCsv]
    rw [if_neg (fun h => hseries (List.eq_nil_of_length_eq_zero h))]
    rw [if_neg (by omega)]
    have hstart : (if store.capacity < store.writeIndex then
        store.writeIndex - store.capacity else 0) =
        store.writeIndex - store.capacity := by
      split_ifs <;> omega
    rw [hstart]
    have hcount : store.writeIndex - 1 + 1 - (store.writeIndex - store.capacity) =
        min store.writeIndex store.capacity := by omega
    rw [hcount]
    rw [List.range'_eq_map_range, List.map_map]
    rfl
  · intro ringIndex si hsi hfin
    simp only [List.getD_eq_getElem?_getD] at hfin
    rw [csvSeriesCells]
    rw [List.getD_eq_getElem?_getD, List.getElem?_map, List.getElem?_range hsi]
    simp [csvCell, hfin]
  · intro ringIndex hts hfin
    rw [csvTimeCell, if_pos hts]
    cases hv : store.times.getD ringIndex JsVal.undef <;>
      simp_all [JsVal.isFinite]

/-- A concrete wrapped store: capacity 3, five appends (indices 0 and 1
evicted), two series, one `NaN` sample and one `NaN` timestamp. -/
def demoStore : RingStore :=
  { series := ["a", "b"], capacity := 3, writeIndex := 5
    times := [JsVal.num 30, JsVal.num 40, JsVal.nan]
    buffers := [[JsVal.num 1, JsVal.num 2, JsVal.num 3],
                [JsVal.nan, JsVal.num 5, JsVal.num 6]]
    firstTimestamp := some 10 }

def demoOptions : ChartExportOptions :=
  { scope := .all, includeTimestamps := true
    timeFormat := some .timestamp, format := .csv }

def demoSnapshot : ViewPortData :=
  { series := [], times := [], seriesData := [], firstTimestamp := none }

/-- Witness for C9 at the wrapped `demoStore`. -/
theorem exportAll_csv_structure_witness :
    demoStore.series ≠ [] ∧
    1 ≤ min demoStore.writeIndex demoStore.capacity ∧
    exportAllChartDataAsCsv demoStore demoOptions =
      String.intercalate "\n"
        (csvHeaderLine demoStore.series demoOptions ::
         (List.range (min demoStore.writeIndex demoStore.capacity)).map (fun k =>
           csvRowAll demoStore demoOptions
             (demoStore.writeIndex - demoStore.capacity + k))) :=
  ⟨by decide, by decide,
   (exportAll_csv_structure demoStore demoOptions (by decide) (by decide)).1⟩

/-- C10: with zero series or zero valid samples the CSV exports return
the literal `"No data available"` (or just the header row) without
throwing, while the WAV export throws `"No data available"` in the same
situations; and `exportChartData` with format `wav` and scope `visible`
always throws, so WAV output is only ever produced from the full
store. -/
theorem export_no_data_handling (store : RingStore)
    (snapshot : ViewPortData) (options : ChartExportOptions) :
    (store.series = [] →
      exportAllChartDataAsCsv store options = "No data available") ∧
    (store.series ≠ [] → min store.writeIndex store.capacity = 0 →
      exportAllChartDataAsCsv store options = csvHeaderLine store.series options) ∧
    (store.series = [] ∨ min store.writeIndex store.capacity = 0 →
      exportAllChartDataAsWav store = Except.error "No data available") ∧
    (snapshot.series = [] ∨ snapshot.times = [] →
      exportVisibleChartDataAsCsv snapshot options = "No data available") ∧
    (options.format = ExportFormat.wav →
      options.scope = ChartExportScope.visible →
      exportChartData snapshot store options =
        Except.error "`visible` scope is not supported for WAV export") := by
  refine ⟨?_, ?_, ?_, ?_, ?_⟩
  · intro h
    rw [exportAllChartDataAsCsv, if_pos (by simp [h])]
  · intro hne h0
    rw [exportAllChartDataAsCsv,
      if_neg (fun h => hne (List.eq_nil_of_length_eq_zero h)), if_pos h0]
  · intro h
    rcases h with h | h
    · rw [exportAllChartDataAsWav, if_pos (by simp [h])]
    · rw [exportAllChartDataAsWav]
      split_ifs <;> rfl
  · intro h
    rw [exportVisibleChartDataAsCsv, if_pos]
    rcases h with h | h
    · exact Or.inl (by simp [h])
    · exact Or.inr (by simp [h])
  · intro hf hs
    simp [exportChartData, hf, hs]

/-- Witness for C10: visible-scope WAV export throws; a store without
series yields the `"No data available"` string. -/
theorem export_no_data_handling_witness :
    exportChartData demoSnapshot demoStore
      { scope := .visible, includeTimestamps := true
        timeFormat := none, format := .wav } =
      Except.error "`visible` scope is not supported for WAV export" ∧
    exportAllChartDataAsCsv
      { demoStore with series := [] } demoOptions = "No data available" :=
  ⟨(export_no_data_handling demoStore demoSnapshot
      { scope := .visible, includeTimestamps := true
        timeFormat := none, format := .wav }).2.2.2.2 rfl rfl,
   (export_no_data_handling { demoStore with series := [] } demoSnapshot
      demoOptions).1 rfl⟩

end WebSerialPlotter
